import Mathlib

/-!
Verification of the hardware-render negotiation and backend lifecycle
subsystem of the `ruffle_libretro` core, as a shallow embedding in Lean.

Sections, in dependency order:
* `Render`   — `src/backend/render.rs`: preference resolution
  (`get_preferred_hw_render`) and context announcement
  (`HardwareRenderCallback::set`).
* `Negotiation` — `src/backend/render/vulkan/negotiation.rs`: Vulkan
  queue-family selection.
* `Lifecycle` — `src/core/core.rs` + `src/core/state.rs`: the
  `PlayerState` machine driven by libretro hardware-context callbacks.
* `Target`   — `src/backend/render/vulkan/target.rs`:
  `RetroTextureTarget` creation/resize with a foreign-shared image.
* `Storage`  — `src/backend/storage.rs`: VFS-backed save-data store with
  a path sandbox.
-/

namespace Render

/-- `retro_hw_context_type` from `rust_libretro_sys` (libretro.h), with the
discriminants used by `src/backend/render.rs`:
NONE = 0, OPENGL = 1, OPENGLES2 = 2, OPENGL_CORE = 3, OPENGLES3 = 4,
OPENGLES_VERSION = 5, VULKAN = 6, DIRECT3D = 7. -/
inductive RetroHwContextType where
  | NONE
  | OPENGL
  | OPENGLES2
  | OPENGL_CORE
  | OPENGLES3
  | OPENGLES_VERSION
  | VULKAN
  | DIRECT3D
deriving DecidableEq, Repr

/-- The variants of `HardwareRenderError` (`src/backend/render.rs`) reachable
from the functions embedded here. -/
inductive HardwareRenderError where
  | InvalidEnvironmentCallback
  | UnknownContextType (code : Nat)
  | FailedToSetRenderer (ty : RetroHwContextType)
  | DriverSwitchingNotAvailable
deriving DecidableEq, Repr

open RetroHwContextType HardwareRenderError

/-- `get_preferred_hw_render` (`src/backend/render.rs`, lines 53–70).

The host's answer to `RETRO_ENVIRONMENT_GET_PREFERRED_HW_RENDER` is modelled
as `Option (Nat × Bool)`: `environment::get::<u32>` returns
`Some((code, flag))` where `flag` is the callback's boolean result
("driver switching allowed"), and `None` when the environment callback is
absent.  The match arms mirror the Rust `match` exactly. -/
def get_preferred_hw_render (env : Option (Nat × Bool)) :
    Except HardwareRenderError RetroHwContextType :=
  match env with
  | some (0, true) => .ok NONE
  | some (1, true) => .ok OPENGL
  | some (2, true) => .ok OPENGLES2
  | some (3, true) => .ok OPENGL_CORE
  | some (4, true) => .ok OPENGLES3
  | some (5, true) => .ok OPENGLES_VERSION
  | some (6, true) => .ok VULKAN
  | some (7, true) => .ok DIRECT3D
  | some (_, false) => .error DriverSwitchingNotAvailable
  | some (unknown, true) => .error (UnknownContextType unknown)
  | none => .error InvalidEnvironmentCallback

/-- `ash::vk::API_VERSION_1_3`: the packed Vulkan version constant
`(1 <<< 22) ||| (3 <<< 12)` that the Rust code stores into
`version_major` for the Vulkan context. -/
def vkApiVersion13 : Nat := (1 <<< 22) ||| (3 <<< 12)

/-- The fields of `retro_hw_render_callback` that
`HardwareRenderCallback::set` computes (function pointers and
host-filled fields omitted). -/
structure RetroHwRenderCallback where
  context_type : RetroHwContextType
  bottom_left_origin : Bool
  version_major : Nat
  version_minor : Nat
  cache_context : Bool
  debug_context : Bool
  depth : Bool
  stencil : Bool
deriving DecidableEq, Repr

/-- `HardwareRenderCallback::set` (`src/backend/render.rs`, lines 80–123).
Builds the callback record field-by-field as the source does, then
dispatches on the host's answer to `RETRO_ENVIRONMENT_SET_HW_RENDER`
(modelled as `envSet : Option Bool`: `Some b` when the environment callback
exists and returns `b`, `None` otherwise). -/
def HardwareRenderCallback.set (preferred_renderer : RetroHwContextType)
    (envSet : Option Bool) :
    Except HardwareRenderError RetroHwRenderCallback :=
  let callback : RetroHwRenderCallback :=
    { context_type :=
        match preferred_renderer with
        | OPENGL => OPENGLES2
        | OPENGLES_VERSION | OPENGL_CORE => OPENGLES3
        | _ => preferred_renderer
      bottom_left_origin := true
      version_major :=
        match preferred_renderer with
        | OPENGLES3 => 3
        | OPENGLES2 | OPENGL => 2
        | DIRECT3D => 11
        | VULKAN => vkApiVersion13
        | _ => 0
      version_minor :=
        match preferred_renderer with
        | OPENGLES3 => 1
        | _ => 0
      cache_context := true
      debug_context := true
      depth := false
      stencil := false }
  match envSet with
  | some true => .ok callback
  | some false => .error (FailedToSetRenderer preferred_renderer)
  | none => .error InvalidEnvironmentCallback

end Render

namespace Negotiation

/-- The fields of `vk::QueueFamilyProperties` consulted by the selection
logic in `src/backend/render/vulkan/negotiation.rs`: whether `queue_flags`
contains `GRAPHICS` and `COMPUTE`.  The `present` field records the answer
of `vkGetPhysicalDeviceSurfaceSupportKHR` for this family and the supplied
surface; the code's error branch for that query (propagating a Vulkan
error) is outside the claims and the query is modelled as total. -/
structure QueueFamilyProps where
  graphics : Bool
  compute : Bool
  present : Bool
deriving DecidableEq, Repr

/-- `queue_flags.contains(QueueFlags::GRAPHICS | QueueFlags::COMPUTE)`. -/
def QueueFamilyProps.graphicsCompute (f : QueueFamilyProps) : Bool :=
  f.graphics && f.compute

/-- `QueueFamily(properties, index)` from
`src/backend/render/vulkan/util.rs`. -/
abbrev QueueFamily := QueueFamilyProps × Nat

/-- `QueueFamilies` from `src/backend/render/vulkan/util.rs`, lines 32–40. -/
inductive QueueFamilies where
  | Single (family : QueueFamily)
  | Split (graphics_compute : QueueFamily) (present : QueueFamily)
  | GraphicsComputeOnly (family : QueueFamily)
deriving DecidableEq, Repr

/-- `queue_families.iter().enumerate().find_map(..)` specialised to a
boolean predicate: the first family satisfying `p`, together with its
index. -/
def findFamily (p : QueueFamilyProps → Bool) :
    List QueueFamilyProps → Option QueueFamily
  | [] => none
  | f :: rest =>
    if p f then some (f, 0)
    else (findFamily p rest).map (fun fq => (fq.1, fq.2 + 1))

def noAcceptableQueueFamilyMsg : String := "No acceptable queue family was found"

/-- `select_queue_family` (`negotiation.rs`, lines 546–563): the first
queue family whose flags contain GRAPHICS and COMPUTE, or the
"no acceptable queue family" error. -/
def select_queue_family (queue_families : List QueueFamilyProps) :
    Except String QueueFamily :=
  match findFamily QueueFamilyProps.graphicsCompute queue_families with
  | some fq => .ok fq
  | none => .error noAcceptableQueueFamilyMsg

/-- `select_queue_families` (`negotiation.rs`, lines 478–542), used when a
surface was supplied.  First searches for a single family supporting
GRAPHICS+COMPUTE and presentation to the surface; failing that, pairs the
first GRAPHICS+COMPUTE family with the first presentation-capable family,
and errors if either is missing. -/
def select_queue_families (queue_families : List QueueFamilyProps) :
    Except String QueueFamilies :=
  match findFamily
      (fun f => f.graphicsCompute && f.present) queue_families with
  | some fq => .ok (.Single fq)
  | none =>
    match select_queue_family queue_families with
    | .error e => .error e
    | .ok queue_family =>
      match findFamily (fun f => f.present) queue_families with
      | some presentation_queue_family =>
        .ok (.Split queue_family presentation_queue_family)
      | none => .error noAcceptableQueueFamilyMsg

/-- The queue-family choice made by `create_device2`
(`negotiation.rs`, lines 320–327): with a valid surface it defers to
`select_queue_families`; without one it wraps the first GRAPHICS+COMPUTE
family in `GraphicsComputeOnly`. -/
def choose_queue_families (hasSurface : Bool)
    (queue_families : List QueueFamilyProps) : Except String QueueFamilies :=
  if hasSurface then
    select_queue_families queue_families
  else
    match select_queue_family queue_families with
    | .ok fq => .ok (.GraphicsComputeOnly fq)
    | .error e => .error e

end Negotiation

namespace Lifecycle

/-- `PlayerState` (`src/core/state.rs`, lines 7–11), plus the `Exiting`
variant that `src/core/core.rs` assigns and matches on (the spec lists all
four states).  The `Pending` payload `Cell<PlayerBuilder>` is modelled by a
builder identifier; the `Active` payload (the running player) carries no
information the claims consult. -/
inductive PlayerState where
  | Uninitialized
  | Pending (builder : Nat)
  | Active
  | Exiting
deriving DecidableEq, Repr

/-- The part of the `Ruffle` core state the lifecycle claims consult:
the player state, a fresh-builder counter (`on_load_game` constructs a new
`PlayerBuilder` each time), the log of builders passed to
`finalize_player` (each `Cell::take` + finalize call appends one entry),
and the number of `ctx.shutdown()` requests issued so far. -/
structure CoreState where
  player : PlayerState
  nextBuilder : Nat
  finalizeLog : List Nat
  shutdownRequests : Nat
deriving DecidableEq, Repr

/-- `Ruffle::on_hw_context_reset` (`src/core/core.rs`, lines 403–434).
`finalizeOk` is the outcome of `self.finalize_player(builder.take(), ..)`:
the builder is taken out of the `Pending` cell and consumed by
`finalize_player` exactly once per call, success yielding `Active` and
failure `Uninitialized`.  An `Active` player cannot survive a context
reset: the state becomes `Exiting` and the host is asked to shut down.
`Uninitialized` and `Exiting` only log a warning. -/
def on_hw_context_reset (s : CoreState) (finalizeOk : Bool) : CoreState :=
  match s.player with
  | .Active =>
    { s with player := .Exiting, shutdownRequests := s.shutdownRequests + 1 }
  | .Pending builder =>
    { s with
      player := if finalizeOk then .Active else .Uninitialized
      finalizeLog := s.finalizeLog ++ [builder] }
  | .Uninitialized => s
  | .Exiting => s

/-- `Ruffle::on_hw_context_destroyed` (`src/core/core.rs`, lines 436–449):
if `Active`, transition to `Exiting` and request host shutdown; in every
other state, warn and change nothing. -/
def on_hw_context_destroyed (s : CoreState) : CoreState :=
  match s.player with
  | .Active =>
    { s with player := .Exiting, shutdownRequests := s.shutdownRequests + 1 }
  | _ => s

/-- `Ruffle::on_load_game` (`src/core/core.rs`, lines 201–276): on success
a fresh `PlayerBuilder` is constructed and stored, `self.player = Pending`;
every failure returns before that assignment, leaving the state unchanged. -/
def on_load_game (s : CoreState) (ok : Bool) : CoreState :=
  if ok then
    { s with player := .Pending s.nextBuilder, nextBuilder := s.nextBuilder + 1 }
  else s

/-- `Ruffle::on_unload_game` (`src/core/core.rs`, lines 278–283):
unconditionally `self.player = Uninitialized`. -/
def on_unload_game (s : CoreState) : CoreState :=
  { s with player := .Uninitialized }

/-- The host-driven events the lifecycle claims range over. -/
inductive CoreEvent where
  | loadGame (ok : Bool)
  | unloadGame
  | contextReset (finalizeOk : Bool)
  | contextDestroyed
deriving DecidableEq, Repr

def step (s : CoreState) : CoreEvent → CoreState
  | .loadGame ok => on_load_game s ok
  | .unloadGame => on_unload_game s
  | .contextReset ok => on_hw_context_reset s ok
  | .contextDestroyed => on_hw_context_destroyed s

/-- `Ruffle::new` starts with `player: PlayerState::Uninitialized`
(`src/core.rs`, line 188). -/
def initState : CoreState :=
  { player := .Uninitialized, nextBuilder := 0, finalizeLog := [], shutdownRequests := 0 }

/-- Run a sequence of host events from the initial core state. -/
def run (events : List CoreEvent) : CoreState :=
  events.foldl step initState

/-- Progress rank of a player state along the one-directional chain
`Uninitialized → Pending → Active → Exiting`. -/
def rank : PlayerState → Nat
  | .Uninitialized => 0
  | .Pending _ => 1
  | .Active => 2
  | .Exiting => 3

/-- Invariant tying the finalize log to the fresh-builder counter: no
builder is finalized twice, a pending builder has not been finalized yet,
and every logged builder was allocated by the counter. -/
def lifecycleInv (s : CoreState) : Prop :=
  s.finalizeLog.Nodup ∧
  (∀ b, s.player = .Pending b → b ∉ s.finalizeLog ∧ b < s.nextBuilder) ∧
  (∀ b ∈ s.finalizeLog, b < s.nextBuilder)

end Lifecycle

namespace Target

/-- The native-resource operations `RetroTextureTarget` performs through
`wgpu::Device::create_texture`, `ash::Device::create_image_view` and
`ash::Device::destroy_image_view`, recorded in order for the ordering
claims. -/
inductive GpuOp where
  | createTexture (texture : Nat)
  | createImageView (view : Nat)
  | destroyImageView (view : Nat)
deriving DecidableEq, Repr

/-- The graphics device/driver state threaded through target operations:
fresh-handle counters for textures and image views (each `create_*` call
yields a new object), and the trace of native create/destroy calls. -/
structure GpuState where
  nextTexture : Nat
  nextImageView : Nat
  log : List GpuOp
deriving DecidableEq, Repr

/-- `wgpu::Device::create_texture`: allocates a fresh texture object. -/
def createTexture (g : GpuState) : Nat × GpuState :=
  (g.nextTexture,
   { g with
     nextTexture := g.nextTexture + 1
     log := g.log ++ [.createTexture g.nextTexture] })

/-- `vk::ImageViewCreateInfo` as built by
`RetroTextureTarget::create_image_view` (`target.rs`, lines 113–143): the
fields other than `image` are constants (2D view type, `R8G8B8A8_UNORM`,
full color subresource range, identity-like swizzle), so only the backing
image is modelled. -/
structure ImageViewCreateInfo where
  image : Nat
deriving DecidableEq, Repr

/-- `RetroTextureTarget::create_image_view` (`target.rs`, lines 113–143):
reads the raw Vulkan image out of the wgpu texture
(`get_vk_image`, modelled as the texture handle itself), builds the
creation info over it, and creates a fresh image view. -/
def create_image_view (g : GpuState) (texture : Nat) :
    (ImageViewCreateInfo × Nat) × GpuState :=
  let create_info : ImageViewCreateInfo := { image := texture }
  ((create_info, g.nextImageView),
   { g with
     nextImageView := g.nextImageView + 1
     log := g.log ++ [.createImageView g.nextImageView] })

/-- `ash::Device::destroy_image_view`. -/
def destroyImageView (g : GpuState) (view : Nat) : GpuState :=
  { g with log := g.log ++ [.destroyImageView view] }

/-- `wgpu::Extent3d`. -/
structure Extent3d where
  width : Nat
  height : Nat
  depth_or_array_layers : Nat
deriving DecidableEq, Repr

/-- `retro_vulkan_image` (`rust_libretro_sys`): the foreign-image
descriptor handed to the host.  `image_layout` is
`SHADER_READ_ONLY_OPTIMAL` at creation and never reassigned, so it is not
modelled. -/
structure RetroVulkanImage where
  image_view : Nat
  create_info : ImageViewCreateInfo
deriving DecidableEq, Repr

/-- `RetroTextureTarget` (`target.rs`, lines 13–21).  The `format` field
is constant across the claims and omitted. -/
structure RetroTextureTarget where
  size : Extent3d
  texture : Nat
  create_info : ImageViewCreateInfo
  image_view : Nat
  retro_image : RetroVulkanImage
deriving DecidableEq, Repr

/-- `wgpu::Limits::max_texture_dimension_2d`, read by the bounds check. -/
structure DeviceLimits where
  max_texture_dimension_2d : Nat
deriving DecidableEq, Repr

def boundsErrorMsg : String :=
  "Texture target cannot be smaller than 1 or larger than the device limit on either dimension"

/-- `RetroTextureTarget::new` (`target.rs`, lines 39–89).  The bounds
check on the requested size runs before any native resource is created;
only after it passes are the texture, image view and foreign-image
descriptor built.  The pair returns the (possibly unchanged) device state
alongside the result so that resource creation is observable. -/
def RetroTextureTarget.new (limits : DeviceLimits) (size : Nat × Nat)
    (g : GpuState) : Except String RetroTextureTarget × GpuState :=
  if size.1 > limits.max_texture_dimension_2d
      || size.2 > limits.max_texture_dimension_2d
      || size.1 < 1
      || size.2 < 1 then
    (.error boundsErrorMsg, g)
  else
    let sizeE : Extent3d :=
      { width := size.1, height := size.2, depth_or_array_layers := 1 }
    let (texture, g) := createTexture g
    let ((create_info, image_view), g) := create_image_view g texture
    let retro_image : RetroVulkanImage :=
      { image_view := image_view, create_info := create_info }
    (.ok { size := sizeE
           texture := texture
           create_info := create_info
           image_view := image_view
           retro_image := retro_image }, g)

/-- `RetroTextureTarget::resize` (`target.rs`, lines 149–178), in the
source's statement order: set `self.size` from the requested dimensions
(keeping the old layer count), create the new backing texture, destroy
the old image view, create the new image view over the new texture, and
install the new view and creation info into the foreign-image
descriptor.  There is no validation and no failure path. -/
def RetroTextureTarget.resize (t : RetroTextureTarget) (g : GpuState)
    (width height : Nat) : RetroTextureTarget × GpuState :=
  let size : Extent3d :=
    { width := width, height := height
      depth_or_array_layers := t.size.depth_or_array_layers }
  let (texture, g) := createTexture g
  let g := destroyImageView g t.image_view
  let ((create_info, image_view), g) := create_image_view g texture
  ({ t with
     size := size
     texture := texture
     create_info := create_info
     image_view := image_view
     retro_image :=
       { t.retro_image with
         image_view := image_view, create_info := create_info } }, g)

/-- `RetroTextureTarget::width` (`target.rs`). -/
def RetroTextureTarget.width (t : RetroTextureTarget) : Nat := t.size.width

/-- `RetroTextureTarget::height` (`target.rs`). -/
def RetroTextureTarget.height (t : RetroTextureTarget) : Nat := t.size.height

/-- `a` occurs strictly before `b` in the operation trace `l`. -/
def precedesIn (a b : GpuOp) (l : List GpuOp) : Prop :=
  ∃ i j, i < j ∧ l.get? i = some a ∧ l.get? j = some b

end Target

namespace Storage

/-- Rust strings are modelled as lists of characters and `Path` values as
lists of components (each a list of characters), so that every path
operation is structurally computable. -/
abbrev PathComponent := List Char

/-- Split a character sequence at every `/`. -/
def splitOnSlash : List Char → List PathComponent
  | [] => [[]]
  | c :: rest =>
    let r := splitOnSlash rest
    if c = '/' then [] :: r
    else
      match r with
      | [] => [[c]]
      | h :: t => (c :: h) :: t

/-- `std::path::Path::components` on Unix, as consumed by the sandbox
check: split on `/`, drop empty components and `.` (`CurDir`); `..`
remains as a literal component (`ParentDir`). -/
def parseComponents (s : List Char) : List PathComponent :=
  (splitOnSlash s).filter (fun c => c ≠ [] && c ≠ ['.'])

/-- `PathBuf::join`: appending an absolute path replaces the base. -/
def pathJoin (base : List PathComponent) (s : List Char) :
    List PathComponent :=
  if s.head? = some '/' then parseComponents s else base ++ parseComponents s

/-- The members of the host's `retro_vfs_interface` that the storage
backend calls.  Each function pointer may be absent (`has*` is false);
when present, its behaviour is an oracle.  `openR` returns `none` for a
null handle; handles are `Nat`. -/
structure VfsInterface where
  hasOpen : Bool
  hasSize : Bool
  hasRead : Bool
  hasClose : Bool
  hasWrite : Bool
  hasMkdir : Bool
  hasRemove : Bool
  openR : List PathComponent → Nat → Option Nat
  sizeR : Nat → Int
  readR : Nat → Int → Int
  closeR : Nat → Int
  writeR : Nat → Nat → Int
  mkdirR : List PathComponent → Int
  removeR : List PathComponent → Int

/-- One invocation of a host VFS function pointer, with the path or
handle it was given. -/
inductive VfsCall where
  | openC (path : List PathComponent) (flags : Nat)
  | sizeC (handle : Nat)
  | readC (handle : Nat)
  | closeC (handle : Nat)
  | writeC (handle : Nat) (len : Nat)
  | mkdirC (path : List PathComponent)
  | removeC (path : List PathComponent)
deriving DecidableEq, Repr

/-- `VfsFileOpenFlags::READ.bits()`. -/
def readFlag : Nat := 1

/-- `VfsFileOpenFlags::WRITE.bits()`. -/
def writeFlag : Nat := 2

/-- `vfs.close?(handle)` / `vfs.close.map(|close| close(handle))`: the
close call happens only when the pointer is present. -/
def closeCalls (vfs : VfsInterface) (handle : Nat) : List VfsCall :=
  if vfs.hasClose then [.closeC handle] else []

/-- The fields of `RetroVfsStorageBackend` (`src/backend/storage.rs`)
used by the claims. -/
structure RetroVfsStorageBackend where
  base_path : List PathComponent
  shared_objects_path : List PathComponent

/-- The path construction in `RetroVfsStorageBackend::new`:
`shared_objects_path = base_path.join("SharedObjects")`. -/
def RetroVfsStorageBackend.ofBase (base : List PathComponent) :
    RetroVfsStorageBackend :=
  { base_path := base
    shared_objects_path := base ++ ["SharedObjects".toList] }

/-- `RetroVfsStorageBackend::is_path_allowed` (`storage.rs`, lines 61–64):
no `..` (`ParentDir`) component anywhere in the path. -/
def is_path_allowed (path : List PathComponent) : Bool :=
  path.all (fun c => c ≠ ['.', '.'])

/-- `RetroVfsStorageBackend::get_shared_object_path` (`storage.rs`):
`self.shared_objects_path.join(format!("{name}.sol"))`. -/
def RetroVfsStorageBackend.get_shared_object_path
    (b : RetroVfsStorageBackend) (name : List Char) : List PathComponent :=
  pathJoin b.shared_objects_path (name ++ ".sol".toList)

/-- `StorageBackend::get` for `RetroVfsStorageBackend` (`storage.rs`,
lines 90–155).  Returns the retrieved size (`none` on any failure) paired
with the trace of VFS calls made.  The sandbox check runs before any VFS
function is invoked.  `CString` conversion of the path is modelled as
always succeeding; the buffer's contents are not modelled, only the size
read. -/
def RetroVfsStorageBackend.get (b : RetroVfsStorageBackend)
    (vfs : VfsInterface) (name : List Char) : Option Int × List VfsCall :=
  let path := b.get_shared_object_path name
  if !is_path_allowed path then (none, [])
  else if !vfs.hasOpen then (none, [])
  else
    match vfs.openR path readFlag with
    | none => (none, [.openC path readFlag])
    | some handle =>
      let callsOpen : List VfsCall := [.openC path readFlag]
      if !vfs.hasSize then (none, callsOpen ++ closeCalls vfs handle)
      else
        let callsSize := callsOpen ++ [VfsCall.sizeC handle]
        let size := vfs.sizeR handle
        if size = -1 then (none, callsSize ++ closeCalls vfs handle)
        else if !vfs.hasRead then (none, callsSize ++ closeCalls vfs handle)
        else
          let callsRead := callsSize ++ [VfsCall.readC handle]
          if vfs.readR handle size = -1 then
            (none, callsRead ++ closeCalls vfs handle)
          else (some size, callsRead ++ closeCalls vfs handle)

/-- `StorageBackend::put` for `RetroVfsStorageBackend` (`storage.rs`,
lines 157–225): sandbox check, `ensure_storage_dir` on the parent
directory (requires the `mkdir` pointer; result `0` or `-2` is success),
open for writing, write, close.  Returns the success flag paired with
the VFS call trace. -/
def RetroVfsStorageBackend.put (b : RetroVfsStorageBackend)
    (vfs : VfsInterface) (name : List Char) (valueLen : Nat) :
    Bool × List VfsCall :=
  let path := b.get_shared_object_path name
  if !is_path_allowed path then (false, [])
  else if !vfs.hasMkdir then (false, [])
  else
    let parent := path.dropLast
    let callsMkdir : List VfsCall := [.mkdirC parent]
    let mk := vfs.mkdirR parent
    if mk ≠ 0 ∧ mk ≠ -2 then (false, callsMkdir)
    else if !vfs.hasOpen then (false, callsMkdir)
    else
      match vfs.openR path writeFlag with
      | none => (false, callsMkdir ++ [.openC path writeFlag])
      | some handle =>
        let callsOpen := callsMkdir ++ [VfsCall.openC path writeFlag]
        if !vfs.hasWrite then (false, callsOpen ++ closeCalls vfs handle)
        else
          let callsWrite := callsOpen ++ [VfsCall.writeC handle valueLen]
          if vfs.writeR handle valueLen = -1 then
            (false, callsWrite ++ closeCalls vfs handle)
          else (true, callsWrite ++ closeCalls vfs handle)

/-- `StorageBackend::remove_key` for `RetroVfsStorageBackend`
(`storage.rs`, lines 227–245): sandbox check, then a single `remove`
call when the pointer is present.  The Rust function returns `()`; the
model returns the VFS call trace. -/
def RetroVfsStorageBackend.remove_key (b : RetroVfsStorageBackend)
    (vfs : VfsInterface) (name : List Char) : List VfsCall :=
  let path := b.get_shared_object_path name
  if !is_path_allowed path then []
  else if !vfs.hasRemove then []
  else [.removeC path]

end Storage

/-! ### Helper lemmas -/

namespace Negotiation

theorem findFamily_eq_none_iff (p : QueueFamilyProps → Bool)
    (l : List QueueFamilyProps) :
    findFamily p l = none ↔ ∀ f ∈ l, p f = false := by
  induction l with
  | nil => simp [findFamily]
  | cons f rest ih =>
    by_cases h : p f = true
    · simp [findFamily, h]
    · have h' : p f = false := Bool.eq_false_iff.mpr h
      simp [findFamily, h', Option.map_eq_none', ih]

theorem findFamily_some_props (p : QueueFamilyProps → Bool)
    (l : List QueueFamilyProps) (f : QueueFamilyProps) (i : Nat) :
    findFamily p l = some (f, i) →
    p f = true ∧ l.get? i = some f ∧
      ∀ j, j < i → ∀ g, l.get? j = some g → p g = false := by
  induction l generalizing f i with
  | nil => simp [findFamily]
  | cons a rest ih =>
    intro h
    simp only [findFamily] at h
    by_cases ha : p a = true
    · rw [if_pos ha] at h
      obtain ⟨rfl, rfl⟩ : a = f ∧ 0 = i := by simpa using h
      exact ⟨ha, rfl, fun j hj => absurd hj (by omega)⟩
    · rw [if_neg ha] at h
      rcases hrec : findFamily p rest with _ | ⟨g, k⟩
      · rw [hrec] at h; simp at h
      · rw [hrec] at h
        simp only [Option.map_some', Option.some.injEq, Prod.mk.injEq] at h
        obtain ⟨rfl, rfl⟩ := h
        obtain ⟨hp, hget, hmin⟩ := ih g k hrec
        refine ⟨hp, by simpa using hget, ?_⟩
        intro j hj g' hg'
        cases j with
        | zero =>
          simp only [List.get?] at hg'
          cases hg'
          exact Bool.eq_false_iff.mpr ha
        | succ j =>
          exact hmin j (by omega) g' (by simpa using hg')

theorem findFamily_isSome_of_exists (p : QueueFamilyProps → Bool)
    (l : List QueueFamilyProps) (h : ∃ f ∈ l, p f = true) :
    ∃ fq, findFamily p l = some fq := by
  rcases hf : findFamily p l with _ | fq
  · obtain ⟨f, hmem, hpf⟩ := h
    have := (findFamily_eq_none_iff p l).mp hf f hmem
    rw [hpf] at this
    cases this
  · exact ⟨fq, rfl⟩

end Negotiation

namespace Negotiation

/-- Claim C1. Vulkan queue-family selection.  With a surface: if some family
supports GRAPHICS+COMPUTE and presentation, the result is `Single` with
such a family; failing that, if a GRAPHICS+COMPUTE family and a
presentation-capable family exist, the result is `Split` referencing a
GRAPHICS+COMPUTE family and a presentation family.  Without a surface:
the result is `GraphicsComputeOnly` with the first GRAPHICS+COMPUTE
family.  If no GRAPHICS+COMPUTE family exists, or a surface is supplied
and no family can present to it, selection fails with the
"no acceptable queue family" error. -/
theorem choose_queue_families_spec :
    (∀ fams, (∃ f ∈ fams, (f.graphicsCompute && f.present) = true) →
      ∃ fq, choose_queue_families true fams = .ok (.Single fq) ∧
        fq.1.graphics = true ∧ fq.1.compute = true ∧ fq.1.present = true) ∧
    (∀ fams, (∀ f ∈ fams, (f.graphicsCompute && f.present) = false) →
      (∃ f ∈ fams, f.graphicsCompute = true) →
      (∃ f ∈ fams, f.present = true) →
      ∃ gc pr, choose_queue_families true fams = .ok (.Split gc pr) ∧
        gc.1.graphics = true ∧ gc.1.compute = true ∧ pr.1.present = true) ∧
    (∀ fams, (∃ f ∈ fams, f.graphicsCompute = true) →
      ∃ fq, choose_queue_families false fams = .ok (.GraphicsComputeOnly fq) ∧
        fq.1.graphicsCompute = true ∧ fams.get? fq.2 = some fq.1 ∧
        ∀ j, j < fq.2 → ∀ g, fams.get? j = some g → g.graphicsCompute = false) ∧
    (∀ fams (hasSurface : Bool), (∀ f ∈ fams, f.graphicsCompute = false) →
      choose_queue_families hasSurface fams = .error noAcceptableQueueFamilyMsg) ∧
    (∀ fams, (∀ f ∈ fams, f.present = false) →
      choose_queue_families true fams = .error noAcceptableQueueFamilyMsg) := by
  refine ⟨?single, ?split, ?gcOnly, ?noGc, ?noPresent⟩
  case single =>
    intro fams hex
    obtain ⟨⟨f, i⟩, hfq⟩ :=
      findFamily_isSome_of_exists (fun f => f.graphicsCompute && f.present) fams hex
    obtain ⟨hp, -, -⟩ := findFamily_some_props _ fams f i hfq
    simp only [QueueFamilyProps.graphicsCompute, Bool.and_eq_true] at hp
    exact ⟨(f, i), by simp [choose_queue_families, select_queue_families, hfq],
      hp.1.1, hp.1.2, hp.2⟩
  case split =>
    intro fams hnone hgc hpres
    have h1 : findFamily (fun f => f.graphicsCompute && f.present) fams = none :=
      (findFamily_eq_none_iff _ fams).mpr hnone
    obtain ⟨⟨f, i⟩, hf⟩ :=
      findFamily_isSome_of_exists QueueFamilyProps.graphicsCompute fams hgc
    obtain ⟨hpf, -, -⟩ := findFamily_some_props _ fams f i hf
    obtain ⟨⟨g, j⟩, hg⟩ :=
      findFamily_isSome_of_exists (fun f => f.present) fams hpres
    obtain ⟨hpg, -, -⟩ := findFamily_some_props _ fams g j hg
    simp only [QueueFamilyProps.graphicsCompute, Bool.and_eq_true] at hpf
    refine ⟨(f, i), (g, j), ?_, hpf.1, hpf.2, hpg⟩
    simp [choose_queue_families, select_queue_families, select_queue_family,
      h1, hf, hg]
  case gcOnly =>
    intro fams hgc
    obtain ⟨⟨f, i⟩, hf⟩ :=
      findFamily_isSome_of_exists QueueFamilyProps.graphicsCompute fams hgc
    obtain ⟨hpf, hget, hmin⟩ := findFamily_some_props _ fams f i hf
    exact ⟨(f, i), by simp [choose_queue_families, select_queue_family, hf],
      hpf, hget, hmin⟩
  case noGc =>
    intro fams hasSurface hall
    have h1 : findFamily QueueFamilyProps.graphicsCompute fams = none :=
      (findFamily_eq_none_iff _ fams).mpr hall
    have h2 : findFamily (fun f => f.graphicsCompute && f.present) fams = none :=
      (findFamily_eq_none_iff _ fams).mpr (fun f hf => by rw [hall f hf]; rfl)
    cases hasSurface <;>
      simp [choose_queue_families, select_queue_families, select_queue_family, h1, h2]
  case noPresent =>
    intro fams hall
    have h2 : findFamily (fun f => f.graphicsCompute && f.present) fams = none :=
      (findFamily_eq_none_iff _ fams).mpr
        (fun f hf => by rw [hall f hf, Bool.and_false])
    have h3 : findFamily (fun f => f.present) fams = none :=
      (findFamily_eq_none_iff _ fams).mpr hall
    rcases hsel : select_queue_family fams with e | fq
    · have : e = noAcceptableQueueFamilyMsg := by
        unfold select_queue_family at hsel
        rcases h : findFamily QueueFamilyProps.graphicsCompute fams with _ | fq
        · rw [h] at hsel; simpa using hsel.symm
        · rw [h] at hsel; simp at hsel
      subst this
      simp [choose_queue_families, select_queue_families, h2, hsel]
    · simp [choose_queue_families, select_queue_families, h2, hsel, h3]

/-- Witness for `choose_queue_families_spec` on concrete devices: one
all-capable family yields `Single`; disjoint graphics/compute and
present-only families yield `Split`; no surface yields
`GraphicsComputeOnly` with the first GRAPHICS+COMPUTE family; no
GRAPHICS+COMPUTE family, or no presentation-capable family with a
surface, yields the error. -/
theorem choose_queue_families_spec_witness :
    (∃ fq, choose_queue_families true [⟨true, true, true⟩] = .ok (.Single fq) ∧
      fq.1.graphics = true ∧ fq.1.compute = true ∧ fq.1.present = true) ∧
    (∃ gc pr, choose_queue_families true [⟨true, true, false⟩, ⟨false, false, true⟩] =
        .ok (.Split gc pr) ∧
      gc.1.graphics = true ∧ gc.1.compute = true ∧ pr.1.present = true) ∧
    (∃ fq, choose_queue_families false [⟨false, true, false⟩, ⟨true, true, false⟩] =
        .ok (.GraphicsComputeOnly fq) ∧
      fq.1.graphicsCompute = true ∧
      [(⟨false, true, false⟩ : QueueFamilyProps), ⟨true, true, false⟩].get? fq.2 =
        some fq.1 ∧
      ∀ j, j < fq.2 → ∀ g,
        [(⟨false, true, false⟩ : QueueFamilyProps), ⟨true, true, false⟩].get? j =
          some g → g.graphicsCompute = false) ∧
    (choose_queue_families true [⟨false, true, true⟩] =
      .error noAcceptableQueueFamilyMsg) ∧
    (choose_queue_families true [⟨true, true, false⟩] =
      .error noAcceptableQueueFamilyMsg) :=
  ⟨choose_queue_families_spec.1 [⟨true, true, true⟩] (by decide),
   choose_queue_families_spec.2.1 [⟨true, true, false⟩, ⟨false, false, true⟩]
     (by decide) (by decide) (by decide),
   choose_queue_families_spec.2.2.1 [⟨false, true, false⟩, ⟨true, true, false⟩]
     (by decide),
   choose_queue_families_spec.2.2.2.1 [⟨false, true, true⟩] true (by decide),
   choose_queue_families_spec.2.2.2.2 [⟨true, true, false⟩] (by decide)⟩

end Negotiation

namespace Render

open RetroHwContextType HardwareRenderError

/-- Claim C3. `get_preferred_hw_render`: each supported host code (0–7) with
the driver-switching flag true maps to the exact context type; any other
code with the flag true yields `UnknownContextType` carrying that code;
any code with the flag false yields `DriverSwitchingNotAvailable`; a
missing environment-callback answer yields
`InvalidEnvironmentCallback`. -/
theorem get_preferred_hw_render_spec :
    get_preferred_hw_render (some (0, true)) = .ok NONE ∧
    get_preferred_hw_render (some (1, true)) = .ok OPENGL ∧
    get_preferred_hw_render (some (2, true)) = .ok OPENGLES2 ∧
    get_preferred_hw_render (some (3, true)) = .ok OPENGL_CORE ∧
    get_preferred_hw_render (some (4, true)) = .ok OPENGLES3 ∧
    get_preferred_hw_render (some (5, true)) = .ok OPENGLES_VERSION ∧
    get_preferred_hw_render (some (6, true)) = .ok VULKAN ∧
    get_preferred_hw_render (some (7, true)) = .ok DIRECT3D ∧
    (∀ n, 7 < n →
      get_preferred_hw_render (some (n, true)) = .error (UnknownContextType n)) ∧
    (∀ n, get_preferred_hw_render (some (n, false)) =
      .error DriverSwitchingNotAvailable) ∧
    get_preferred_hw_render none = .error InvalidEnvironmentCallback := by
  refine ⟨rfl, rfl, rfl, rfl, rfl, rfl, rfl, rfl, ?_, ?_, rfl⟩
  · intro n hn
    match n, hn with
    | n + 8, _ => rfl
  · intro n
    match n with
    | 0 | 1 | 2 | 3 | 4 | 5 | 6 | 7 => rfl
    | n + 8 => rfl

/-- Witness for `get_preferred_hw_render_spec`: the unknown-code and
flag-false branches at concrete codes. -/
theorem get_preferred_hw_render_spec_witness :
    get_preferred_hw_render (some (6, true)) = .ok VULKAN ∧
    (7 < 99 ∧ get_preferred_hw_render (some (99, true)) =
      .error (UnknownContextType 99)) ∧
    get_preferred_hw_render (some (3, false)) =
      .error DriverSwitchingNotAvailable :=
  ⟨get_preferred_hw_render_spec.2.2.2.2.2.2.1,
   ⟨by decide, get_preferred_hw_render_spec.2.2.2.2.2.2.2.2.1 99 (by decide)⟩,
   get_preferred_hw_render_spec.2.2.2.2.2.2.2.2.2.1 3⟩

/-- Claim C4, counterexample. The claim says the registered major/minor
version corresponds to the *mapped* context type, with ES3 getting 3.1.
But for preferred type `OPENGL_CORE` the registered type is
`OPENGLES3` while the registered version is 0.0, not 3.1: the source
computes the version by matching on the original preferred type, for
which `OPENGL_CORE` falls into the catch-all 0 arm. -/
theorem set_opengl_core_version_counterexample :
    (HardwareRenderCallback.set OPENGL_CORE (some true)).map
      (fun cb => (cb.context_type, cb.version_major, cb.version_minor)) =
      .ok (OPENGLES3, 0, 0) ∧
    ((0 : Nat), (0 : Nat)) ≠ ((3 : Nat), (1 : Nat)) := by
  exact ⟨rfl, by decide⟩

/-- Claim C4, amended. For every preferred context type announced
successfully, the registered context type is the normalization of the
input (plain OpenGL → ES2; OpenGL core and ES-version-negotiated → ES3;
others pass through), and the registered major/minor version is keyed to
the *original* preferred type: preferred ES3 → 3.1, preferred ES2 or
plain OpenGL → 2.0, preferred Direct3D → 11.0, preferred Vulkan → the
packed Vulkan 1.3 API-version constant as major with minor 0, and every
other preferred type — including OpenGL core and ES-version-negotiated —
→ 0.0. -/
theorem hardware_render_callback_set_spec :
    (HardwareRenderCallback.set NONE (some true)).map
      (fun cb => (cb.context_type, cb.version_major, cb.version_minor)) =
      .ok (NONE, 0, 0) ∧
    (HardwareRenderCallback.set OPENGL (some true)).map
      (fun cb => (cb.context_type, cb.version_major, cb.version_minor)) =
      .ok (OPENGLES2, 2, 0) ∧
    (HardwareRenderCallback.set OPENGLES2 (some true)).map
      (fun cb => (cb.context_type, cb.version_major, cb.version_minor)) =
      .ok (OPENGLES2, 2, 0) ∧
    (HardwareRenderCallback.set OPENGL_CORE (some true)).map
      (fun cb => (cb.context_type, cb.version_major, cb.version_minor)) =
      .ok (OPENGLES3, 0, 0) ∧
    (HardwareRenderCallback.set OPENGLES3 (some true)).map
      (fun cb => (cb.context_type, cb.version_major, cb.version_minor)) =
      .ok (OPENGLES3, 3, 1) ∧
    (HardwareRenderCallback.set OPENGLES_VERSION (some true)).map
      (fun cb => (cb.context_type, cb.version_major, cb.version_minor)) =
      .ok (OPENGLES3, 0, 0) ∧
    (HardwareRenderCallback.set VULKAN (some true)).map
      (fun cb => (cb.context_type, cb.version_major, cb.version_minor)) =
      .ok (VULKAN, vkApiVersion13, 0) ∧
    (HardwareRenderCallback.set DIRECT3D (some true)).map
      (fun cb => (cb.context_type, cb.version_major, cb.version_minor)) =
      .ok (DIRECT3D, 11, 0) := by
  exact ⟨rfl, rfl, rfl, rfl, rfl, rfl, rfl, rfl⟩

end Render

namespace Lifecycle

theorem step_preserves_inv (s : CoreState) (e : CoreEvent)
    (h : lifecycleInv s) : lifecycleInv (step s e) := by
  obtain ⟨p, nb, log, sr⟩ := s
  obtain ⟨hnd, hpend, hlt⟩ := h
  cases e with
  | loadGame ok =>
    cases ok with
    | false =>
      simp only [lifecycleInv, step, on_load_game, Bool.false_eq_true, if_false]
      exact ⟨hnd, hpend, hlt⟩
    | true =>
      simp only [lifecycleInv, step, on_load_game, if_true]
      refine ⟨hnd, ?_, fun b hb => Nat.lt_succ_of_lt (hlt b hb)⟩
      intro b hb
      simp only [PlayerState.Pending.injEq] at hb
      subst hb
      exact ⟨fun hmem => absurd (hlt _ hmem) (lt_irrefl _), Nat.lt_succ_self _⟩
  | unloadGame =>
    simp only [lifecycleInv, step, on_unload_game]
    refine ⟨hnd, ?_, hlt⟩
    intro b hb
    cases hb
  | contextReset ok =>
    cases p with
    | Uninitialized =>
      simp only [lifecycleInv, step, on_hw_context_reset]
      exact ⟨hnd, hpend, hlt⟩
    | Exiting =>
      simp only [lifecycleInv, step, on_hw_context_reset]
      exact ⟨hnd, hpend, hlt⟩
    | Active =>
      simp only [lifecycleInv, step, on_hw_context_reset]
      refine ⟨hnd, ?_, hlt⟩
      intro b hb
      cases hb
    | Pending b =>
      obtain ⟨hbmem, hblt⟩ := hpend b rfl
      simp only [lifecycleInv, step, on_hw_context_reset]
      refine ⟨?_, ?_, ?_⟩
      · rw [List.nodup_append]
        exact ⟨hnd, List.nodup_singleton b,
          fun a ha hb => by simp only [List.mem_singleton] at hb; exact hbmem (hb ▸ ha)⟩
      · intro b' hb'
        cases ok <;> simp at hb'
      · intro b' hb'
        rcases List.mem_append.mp hb' with hmem | hmem
        · exact hlt b' hmem
        · simp only [List.mem_singleton] at hmem
          exact hmem ▸ hblt
  | contextDestroyed =>
    cases p with
    | Uninitialized =>
      simp only [lifecycleInv, step, on_hw_context_destroyed]
      exact ⟨hnd, hpend, hlt⟩
    | Exiting =>
      simp only [lifecycleInv, step, on_hw_context_destroyed]
      exact ⟨hnd, hpend, hlt⟩
    | Pending b =>
      simp only [lifecycleInv, step, on_hw_context_destroyed]
      exact ⟨hnd, hpend, hlt⟩
    | Active =>
      simp only [lifecycleInv, step, on_hw_context_destroyed]
      refine ⟨hnd, ?_, hlt⟩
      intro b hb
      cases hb

theorem foldl_preserves_inv (events : List CoreEvent) :
    ∀ s, lifecycleInv s → lifecycleInv (events.foldl step s) := by
  induction events with
  | nil => exact fun s h => h
  | cons e rest ih => exact fun s h => ih (step s e) (step_preserves_inv s e h)

theorem run_inv (events : List CoreEvent) : lifecycleInv (run events) := by
  refine foldl_preserves_inv events initState ⟨List.nodup_nil, ?_, ?_⟩
  · intro b hb
    cases hb
  · intro b hb
    cases hb

/-- Claim C2, counterexample. A context reset received in `Pending` whose
finalize fails moves the state back to `Uninitialized` — a backwards
transition along `Uninitialized → Pending → Active` that is not the
`Active → Exiting` exception, so transitions are not strictly
one-directional as claimed. -/
theorem lifecycle_one_directional_counterexample :
    (on_hw_context_reset
      { player := .Pending 0, nextBuilder := 1, finalizeLog := [],
        shutdownRequests := 0 } false).player = .Uninitialized ∧
    rank .Uninitialized < rank (.Pending 0) := by decide

/-- Claim C2, amended. Player-state transitions driven by the
hardware-context callbacks are one-directional along
`Uninitialized → Pending → Active → Exiting` except that a context reset
in `Pending` whose finalize fails falls back to `Uninitialized`;
`Pending → Active` happens exactly on a successful finalize, and each
reset in `Pending` consumes the pending builder exactly once (appending
exactly one entry for it to the finalize log); a context reset in
`Pending` with a successful finalize always leaves the state `Active`;
and along every event sequence from the initial state no builder is ever
finalized twice. -/
theorem lifecycle_transitions_spec :
    (∀ s ok, rank s.player ≤ rank ((on_hw_context_reset s ok).player) ∨
      (ok = false ∧ (∃ b, s.player = .Pending b) ∧
        (on_hw_context_reset s ok).player = .Uninitialized)) ∧
    (∀ s, rank s.player ≤ rank ((on_hw_context_destroyed s).player)) ∧
    (∀ s ok b, s.player = .Pending b →
      (((on_hw_context_reset s ok).player = .Active) ↔ ok = true) ∧
      (on_hw_context_reset s ok).finalizeLog = s.finalizeLog ++ [b]) ∧
    (∀ s b, s.player = .Pending b →
      (on_hw_context_reset s true).player = .Active) ∧
    (∀ events, ((run events).finalizeLog).Nodup) := by
  refine ⟨?_, ?_, ?_, ?_, fun events => (run_inv events).1⟩
  · intro s ok
    obtain ⟨p, nb, log, sr⟩ := s
    cases p <;> cases ok <;>
      simp [on_hw_context_reset, rank]
  · intro s
    obtain ⟨p, nb, log, sr⟩ := s
    cases p <;> simp [on_hw_context_destroyed, rank]
  · intro s ok b hp
    obtain ⟨p, nb, log, sr⟩ := s
    cases hp
    cases ok <;> simp [on_hw_context_reset]
  · intro s b hp
    obtain ⟨p, nb, log, sr⟩ := s
    cases hp
    simp [on_hw_context_reset]

/-- Witness for `lifecycle_transitions_spec`: a concrete reset in
`Pending 5` with a successful finalize yields `Active` and appends
builder 5 to the finalize log exactly once. -/
theorem lifecycle_transitions_spec_witness :
    (((on_hw_context_reset
        { player := .Pending 5, nextBuilder := 6, finalizeLog := [],
          shutdownRequests := 0 } true).player = .Active) ↔ true = true) ∧
    (on_hw_context_reset
      { player := .Pending 5, nextBuilder := 6, finalizeLog := [],
        shutdownRequests := 0 } true).finalizeLog = [] ++ [5] :=
  lifecycle_transitions_spec.2.2.1
    { player := .Pending 5, nextBuilder := 6, finalizeLog := [],
      shutdownRequests := 0 } true 5 rfl

/-- Claim C5. `on_hw_context_destroyed` in `Active` transitions to `Exiting`
and issues exactly one host shutdown request; in any non-`Active` state
(including `Exiting`) it changes nothing — in particular zero additional
shutdown requests. -/
theorem context_destroyed_spec :
    ∀ s, (s.player = .Active →
        (on_hw_context_destroyed s).player = .Exiting ∧
        (on_hw_context_destroyed s).shutdownRequests = s.shutdownRequests + 1) ∧
      (s.player ≠ .Active → on_hw_context_destroyed s = s) := by
  intro s
  obtain ⟨p, nb, log, sr⟩ := s
  cases p <;> simp [on_hw_context_destroyed]

/-- Witness for `context_destroyed_spec`: destroying with an active
player shuts down once; destroying again in `Exiting` is a no-op. -/
theorem context_destroyed_spec_witness :
    ((on_hw_context_destroyed
        { player := .Active, nextBuilder := 0, finalizeLog := [],
          shutdownRequests := 0 }).player = .Exiting ∧
      (on_hw_context_destroyed
        { player := .Active, nextBuilder := 0, finalizeLog := [],
          shutdownRequests := 0 }).shutdownRequests = 0 + 1) ∧
    on_hw_context_destroyed
      { player := .Exiting, nextBuilder := 0, finalizeLog := [],
        shutdownRequests := 1 } =
      { player := .Exiting, nextBuilder := 0, finalizeLog := [],
        shutdownRequests := 1 } :=
  ⟨(context_destroyed_spec
      { player := .Active, nextBuilder := 0, finalizeLog := [],
        shutdownRequests := 0 }).1 rfl,
   (context_destroyed_spec
      { player := .Exiting, nextBuilder := 0, finalizeLog := [],
        shutdownRequests := 1 }).2 (by decide)⟩

end Lifecycle

namespace Target

/-- Claim C6. `RetroTextureTarget::new` with width or height 0, or with
either dimension above the device's maximum 2D texture dimension, returns
the bounds error with the device state untouched (no texture and no image
view created before the error); every size within `[1, max]` on both axes
passes the bounds check and yields a target. -/
theorem new_bounds_spec :
    ∀ (limits : DeviceLimits) (W H : Nat) (g : GpuState),
      ((W < 1 ∨ H < 1 ∨ W > limits.max_texture_dimension_2d ∨
          H > limits.max_texture_dimension_2d) →
        (RetroTextureTarget.new limits (W, H) g).1 = .error boundsErrorMsg ∧
        (RetroTextureTarget.new limits (W, H) g).2 = g) ∧
      (1 ≤ W → W ≤ limits.max_texture_dimension_2d → 1 ≤ H →
        H ≤ limits.max_texture_dimension_2d →
        ∃ t, (RetroTextureTarget.new limits (W, H) g).1 = .ok t) := by
  intro limits W H g
  constructor
  · intro hbad
    have hc : ((W, H).1 > limits.max_texture_dimension_2d ||
        (W, H).2 > limits.max_texture_dimension_2d ||
        (W, H).1 < 1 || (W, H).2 < 1) = true := by
      simp only [Bool.or_eq_true, decide_eq_true_eq]
      omega
    rw [RetroTextureTarget.new, if_pos hc]
    exact ⟨rfl, rfl⟩
  · intro h1 h2 h3 h4
    have hc : ((W, H).1 > limits.max_texture_dimension_2d ||
        (W, H).2 > limits.max_texture_dimension_2d ||
        (W, H).1 < 1 || (W, H).2 < 1) = false := by
      simp only [Bool.or_eq_false_iff, decide_eq_false_iff_not, not_lt, gt_iff_lt]
      omega
    rw [RetroTextureTarget.new, if_neg (by rw [hc]; exact Bool.false_ne_true)]
    exact ⟨_, rfl⟩

/-- Witness for `new_bounds_spec`: size (0, 5) is rejected without
touching the device; size (5, 5) passes the bounds check. -/
theorem new_bounds_spec_witness :
    ((RetroTextureTarget.new ⟨4096⟩ (0, 5)
        { nextTexture := 0, nextImageView := 0, log := [] }).1 =
      .error boundsErrorMsg ∧
     (RetroTextureTarget.new ⟨4096⟩ (0, 5)
        { nextTexture := 0, nextImageView := 0, log := [] }).2 =
      { nextTexture := 0, nextImageView := 0, log := [] }) ∧
    ∃ t, (RetroTextureTarget.new ⟨4096⟩ (5, 5)
        { nextTexture := 0, nextImageView := 0, log := [] }).1 = .ok t :=
  ⟨(new_bounds_spec ⟨4096⟩ 0 5
      { nextTexture := 0, nextImageView := 0, log := [] }).1 (Or.inl (by decide)),
   (new_bounds_spec ⟨4096⟩ 5 5
      { nextTexture := 0, nextImageView := 0, log := [] }).2
     (by decide) (by decide) (by decide) (by decide)⟩

end Target

namespace Target

/-- Claim C7. For every render target created at size (W, H), resizing to
the same (W, H) installs a foreign-image descriptor whose image-view
handle differs from the one before the resize (a new view object is
always created, even for an identical size), while the reported width and
height are unchanged and equal to W and H. -/
theorem resize_same_size_spec :
    ∀ (limits : DeviceLimits) (W H : Nat) (g0 : GpuState)
      (t : RetroTextureTarget) (g : GpuState),
      RetroTextureTarget.new limits (W, H) g0 = (.ok t, g) →
      (t.resize g W H).1.retro_image.image_view ≠ t.retro_image.image_view ∧
      (t.resize g W H).1.width = W ∧ (t.resize g W H).1.height = H ∧
      t.width = W ∧ t.height = H := by
  intro limits W H g0 t g h
  rw [RetroTextureTarget.new] at h
  split at h
  · simp at h
  · simp only [createTexture, create_image_view, Prod.mk.injEq,
      Except.ok.injEq] at h
    obtain ⟨ht, hg⟩ := h
    subst ht
    subst hg
    refine ⟨?_, rfl, rfl, rfl, rfl⟩
    simp [RetroTextureTarget.resize, createTexture, create_image_view,
      destroyImageView]

/-- Witness for `resize_same_size_spec` at a concrete creation of size
(3, 2) from a fresh device state. -/
theorem resize_same_size_spec_witness :
    ((RetroTextureTarget.resize
        { size := ⟨3, 2, 1⟩, texture := 0, create_info := ⟨0⟩, image_view := 0,
          retro_image := ⟨0, ⟨0⟩⟩ }
        { nextTexture := 1, nextImageView := 1,
          log := [.createTexture 0, .createImageView 0] } 3 2).1.retro_image.image_view ≠
      (({ size := ⟨3, 2, 1⟩, texture := 0, create_info := ⟨0⟩, image_view := 0,
          retro_image := ⟨0, ⟨0⟩⟩ } : RetroTextureTarget)).retro_image.image_view) ∧
    (RetroTextureTarget.resize
        { size := ⟨3, 2, 1⟩, texture := 0, create_info := ⟨0⟩, image_view := 0,
          retro_image := ⟨0, ⟨0⟩⟩ }
        { nextTexture := 1, nextImageView := 1,
          log := [.createTexture 0, .createImageView 0] } 3 2).1.width = 3 := by
  have h := resize_same_size_spec ⟨4096⟩ 3 2
    { nextTexture := 0, nextImageView := 0, log := [] }
    { size := ⟨3, 2, 1⟩, texture := 0, create_info := ⟨0⟩, image_view := 0,
      retro_image := ⟨0, ⟨0⟩⟩ }
    { nextTexture := 1, nextImageView := 1,
      log := [.createTexture 0, .createImageView 0] } (by rfl)
  exact ⟨h.1, h.2.1⟩

end Target

namespace Target

/-- Claim C8, counterexample. The claim says that on resize the old image
view is destroyed *before* the new backing texture is created.  On a
concrete resize the recorded operation order is: create the new texture,
destroy the old view, create the new view — so the destroy does not
precede the texture creation. -/
theorem resize_order_counterexample :
    (RetroTextureTarget.resize
        { size := ⟨1, 1, 1⟩, texture := 0, create_info := ⟨0⟩, image_view := 0,
          retro_image := ⟨0, ⟨0⟩⟩ }
        { nextTexture := 1, nextImageView := 1, log := [] } 1 1).2.log =
      [.createTexture 1, .destroyImageView 0, .createImageView 1] ∧
    ¬ precedesIn (.destroyImageView 0) (.createTexture 1)
      (RetroTextureTarget.resize
        { size := ⟨1, 1, 1⟩, texture := 0, create_info := ⟨0⟩, image_view := 0,
          retro_image := ⟨0, ⟨0⟩⟩ }
        { nextTexture := 1, nextImageView := 1, log := [] } 1 1).2.log := by
  refine ⟨rfl, ?_⟩
  rintro ⟨i, j, hij, hi, hj⟩
  have hlog : (RetroTextureTarget.resize
      { size := ⟨1, 1, 1⟩, texture := 0, create_info := ⟨0⟩, image_view := 0,
        retro_image := ⟨0, ⟨0⟩⟩ }
      { nextTexture := 1, nextImageView := 1, log := [] } 1 1).2.log =
      [.createTexture 1, .destroyImageView 0, .createImageView 1] := rfl
  rw [hlog] at hi hj
  match j, hj with
  | 0, _ => omega
  | 1, hj => simp at hj
  | 2, hj => simp at hj
  | n + 3, hj => simp at hj

/-- Claim C8, amended. On every resize the recorded native-call order is:
create the new backing texture, then destroy the old image view, then
create the new image view — the old view is destroyed before the new
image view is created (though after the new texture).  After resize
returns, the foreign-image descriptor is never partial: its image view
and creation info both equal the target's, and the creation info refers
to the new backing texture. -/
theorem resize_order_spec :
    ∀ (t : RetroTextureTarget) (g : GpuState) (W H : Nat),
      (t.resize g W H).2.log = g.log ++
        [.createTexture g.nextTexture, .destroyImageView t.image_view,
         .createImageView g.nextImageView] ∧
      precedesIn (.destroyImageView t.image_view)
        (.createImageView g.nextImageView) (t.resize g W H).2.log ∧
      (t.resize g W H).1.retro_image.image_view = (t.resize g W H).1.image_view ∧
      (t.resize g W H).1.retro_image.create_info = (t.resize g W H).1.create_info ∧
      (t.resize g W H).1.create_info.image = (t.resize g W H).1.texture := by
  intro t g W H
  have hlog : (t.resize g W H).2.log = g.log ++
      [.createTexture g.nextTexture, .destroyImageView t.image_view,
       .createImageView g.nextImageView] := by
    simp [RetroTextureTarget.resize, createTexture, create_image_view,
      destroyImageView]
  refine ⟨hlog, ?_, rfl, rfl, rfl⟩
  refine ⟨g.log.length + 1, g.log.length + 2, by omega, ?_, ?_⟩
  · rw [hlog, List.get?_eq_getElem?, List.getElem?_append_right (by omega)]
    simp
  · rw [hlog, List.get?_eq_getElem?, List.getElem?_append_right (by omega)]
    have : g.log.length + 2 - g.log.length = 2 := by omega
    rw [this]
    rfl

/-- Claim C10. Unlike creation, `RetroTextureTarget::resize` performs no
size validation and has no failure path: for every target and every
requested width and height — including 0 and values larger than any
device limit — it replaces the backing texture and image view with
freshly created ones and stores exactly the requested dimensions. -/
theorem resize_no_validation_spec :
    ∀ (t : RetroTextureTarget) (g : GpuState) (W H : Nat),
      (t.resize g W H).1.size.width = W ∧
      (t.resize g W H).1.size.height = H ∧
      (t.resize g W H).1.width = W ∧
      (t.resize g W H).1.height = H ∧
      (t.resize g W H).1.texture = g.nextTexture ∧
      (t.resize g W H).1.image_view = g.nextImageView ∧
      (t.resize g W H).2.nextTexture = g.nextTexture + 1 ∧
      (t.resize g W H).2.nextImageView = g.nextImageView + 1 := by
  intro t g W H
  refine ⟨rfl, rfl, rfl, rfl, ?_, ?_, ?_, ?_⟩ <;>
    simp [RetroTextureTarget.resize, createTexture, create_image_view,
      destroyImageView]

end Target

namespace Storage

/-- Claim C9. For every shared-object name whose derived save path contains
a parent-directory (`..`) component, `get` returns `None`, `put` returns
`false`, and `remove_key` does nothing — in each case with an empty VFS
call trace, i.e. without invoking any virtual-filesystem function on that
path. -/
theorem sandbox_spec :
    ∀ (b : RetroVfsStorageBackend) (vfs : VfsInterface) (name : List Char)
      (valueLen : Nat),
      ['.', '.'] ∈ b.get_shared_object_path name →
      b.get vfs name = (none, []) ∧
      b.put vfs name valueLen = (false, []) ∧
      b.remove_key vfs name = [] := by
  intro b vfs name valueLen hmem
  have hpa : is_path_allowed (b.get_shared_object_path name) = false := by
    rw [Bool.eq_false_iff]
    intro h
    have := List.all_eq_true.mp h _ hmem
    simp at this
  refine ⟨?_, ?_, ?_⟩ <;>
    simp [RetroVfsStorageBackend.get, RetroVfsStorageBackend.put,
      RetroVfsStorageBackend.remove_key, hpa]

/-- Witness for `sandbox_spec`: the name `../escape` derives a path with
a `..` component under `saves/SharedObjects`, so all three operations
reject it without any VFS call, even with a fully populated VFS
interface. -/
theorem sandbox_spec_witness :
    (RetroVfsStorageBackend.ofBase ["saves".toList]).get
      { hasOpen := true, hasSize := true, hasRead := true, hasClose := true,
        hasWrite := true, hasMkdir := true, hasRemove := true,
        openR := fun _ _ => some 1, sizeR := fun _ => 4, readR := fun _ _ => 4,
        closeR := fun _ => 0, writeR := fun _ _ => 0, mkdirR := fun _ => 0,
        removeR := fun _ => 0 } "../escape".toList = (none, []) ∧
    (RetroVfsStorageBackend.ofBase ["saves".toList]).put
      { hasOpen := true, hasSize := true, hasRead := true, hasClose := true,
        hasWrite := true, hasMkdir := true, hasRemove := true,
        openR := fun _ _ => some 1, sizeR := fun _ => 4, readR := fun _ _ => 4,
        closeR := fun _ => 0, writeR := fun _ _ => 0, mkdirR := fun _ => 0,
        removeR := fun _ => 0 } "../escape".toList 7 = (false, []) ∧
    (RetroVfsStorageBackend.ofBase ["saves".toList]).remove_key
      { hasOpen := true, hasSize := true, hasRead := true, hasClose := true,
        hasWrite := true, hasMkdir := true, hasRemove := true,
        openR := fun _ _ => some 1, sizeR := fun _ => 4, readR := fun _ _ => 4,
        closeR := fun _ => 0, writeR := fun _ _ => 0, mkdirR := fun _ => 0,
        removeR := fun _ => 0 } "../escape".toList = [] :=
  sandbox_spec (RetroVfsStorageBackend.ofBase ["saves".toList])
    { hasOpen := true, hasSize := true, hasRead := true, hasClose := true,
      hasWrite := true, hasMkdir := true, hasRemove := true,
      openR := fun _ _ => some 1, sizeR := fun _ => 4, readR := fun _ _ => 4,
      closeR := fun _ => 0, writeR := fun _ _ => 0, mkdirR := fun _ => 0,
      removeR := fun _ => 0 } "../escape".toList 7 (by decide)

end Storage
